import Mathlib

set_option maxHeartbeats 1000000

/- Verification development for the SaveVidBot repository (main.py).

   The Python source is shallowly embedded below.  External effects
   (filesystem probes, the yt-dlp extraction backend, Telegram API calls)
   are modelled as explicit oracle inputs describing the outcome of each
   call site; the embedded functions are otherwise direct translations of
   the corresponding Python code.  Machine integers are Nat (Python ints
   are unbounded, so no wrap-around modelling is needed). -/

namespace SaveVidBot

/- ===================== generic string utilities ===================== -/

/-- Substring test on char lists: does the second list occur contiguously
    inside the first?  Mirrors the Python `in` operator on str. -/
def charsContains (pat : List Char) : List Char → Bool
  | [] => pat.isEmpty
  | c :: rest => pat.isPrefixOf (c :: rest) || charsContains pat rest

/-- Python `pat in s` for strings. -/
def strContains (s pat : String) : Bool :=
  charsContains pat.data s.data

/-- Python s.startswith(pat), computed structurally on char lists. -/
def strStartsWith (s pat : String) : Bool :=
  pat.data.isPrefixOf s.data

/-- Python s.endswith(pat), computed structurally on char lists. -/
def strEndsWith (s pat : String) : Bool :=
  pat.data.reverse.isPrefixOf s.data.reverse

/-- Python s.strip(): drop leading and trailing whitespace. -/
def pyStrip (s : String) : String :=
  String.mk (((s.data.dropWhile Char.isWhitespace).reverse.dropWhile Char.isWhitespace).reverse)

/-- Python s.lower(), computed structurally on char lists. -/
def pyLower (s : String) : String :=
  String.mk (s.data.map Char.toLower)

/-- Ascii apostrophe character, used to assemble marker phrases. -/
def apostChar : Char := '\''

/-- Typographic right-quote character (U+2019), used in one marker phrase. -/
def rightQuoteChar : Char := '’'

/-- Split a filename at its last dot, mirroring os.path.splitext:
    returns (base, extension-including-dot); a purely-leading run of dots
    never counts as an extension separator. -/
def splitExtChars : List Char → List Char × List Char
  | [] => ([], [])
  | c :: rest =>
      let r := splitExtChars rest
      if r.2.isEmpty then
        if c = '.' then ([], '.' :: rest) else (c :: r.1, [])
      else (c :: r.1, r.2)

/-- Python os.path.splitext on a bare filename. -/
def splitExtStr (s : String) : String × String :=
  let l := s.data
  let lead := l.takeWhile (fun c => c = '.')
  let rest := l.dropWhile (fun c => c = '.')
  let p := splitExtChars rest
  if p.2.isEmpty then (s, "")
  else (String.mk (lead ++ p.1), String.mk p.2)

/- ===================== configuration constants (main.py lines 21-56) ===================== -/

/-- main.py line 26: ordered fallback candidate paths for the cookie jar. -/
def DEFAULT_COOKIES_CANDIDATES : List String :=
  ["/etc/secrets/cookies.txt", "/mnt/data/cookies.txt"]

/-- main.py line 38: fixed default browser user-agent string. -/
def DEFAULT_UA : String :=
  "Mozilla/5.0 (Macintosh; Intel Mac OS X 10_15_7) AppleWebKit/605.1.15 (KHTML, like Gecko) Version/18.6 Safari/605.1.15"

/-- The 50 MiB size ceiling, written 50 * 1024 * 1024 throughout main.py. -/
def sizeCeiling : Nat := 50 * 1024 * 1024

/- ===================== cookie discovery (find_cookiefile, lines 72-94) ===================== -/

/-- Outcome of probing one candidate cookie path: the path is not a file,
    reading it raises, or its first line (as returned by readline) is the
    given raw string.  This models os.path.isfile plus open/readline. -/
inductive CookieProbe where
  | notFile : CookieProbe
  | readError : CookieProbe
  | firstLine (raw : String) : CookieProbe
deriving DecidableEq

/-- main.py line 86: the stripped first line must start with one of the two
    recognized cookie-jar header strings. -/
def cookieFirstLineOk (raw : String) : Bool :=
  let first := pyStrip raw
  strStartsWith first "# Netscape HTTP Cookie File" || strStartsWith first "# HTTP Cookie File"

/-- main.py lines 75-79: explicit COOKIES_PATH (stripped, if nonempty)
    first, then the fixed fallback list. -/
def cookieCandidates (envRaw : String) : List String :=
  (if pyStrip envRaw != "" then [pyStrip envRaw] else []) ++ DEFAULT_COOKIES_CANDIDATES

/-- One candidate is accepted when it is nonempty, is a file, reads without
    error, and its first line carries a recognized header. -/
def cookieAccepts (probe : String → CookieProbe) (p : String) : Bool :=
  (p != "") &&
    (match probe p with
     | CookieProbe.firstLine raw => cookieFirstLineOk raw
     | _ => false)

/-- main.py lines 81-94: the scanning loop.  A candidate that is not a
    file, raises on read, or fails the header check is skipped (read errors
    are logged and swallowed); the first validating path is returned. -/
def findCookieLoop (probe : String → CookieProbe) : List String → Option String
  | [] => none
  | p :: rest =>
      if p != "" then
        match probe p with
        | CookieProbe.firstLine raw =>
            if cookieFirstLineOk raw then some p else findCookieLoop probe rest
        | _ => findCookieLoop probe rest
      else findCookieLoop probe rest

/-- main.py find_cookiefile: returns the path of a valid Netscape
    cookies.txt, or none.  The function only reads; it performs no writes
    and returns one of its candidate paths verbatim. -/
def find_cookiefile (probe : String → CookieProbe) (envRaw : String) : Option String :=
  findCookieLoop probe (cookieCandidates envRaw)

/- ===================== yt-dlp option assembly (download_video, lines 187-231) ===================== -/

/-- The claim-relevant fields of the ydl_opts dictionary built at
    main.py lines 197-231. -/
structure YdlOpts where
  fmt : String
  outtmpl : String
  mergeOutputFormat : String
  maxFilesize : Nat
  userAgent : String
  playerClient : List String
  poToken : Option String
  cookiefile : Option String
deriving DecidableEq

/-- main.py lines 188-231: the PO token is read from the PO_TOKEN_WEB
    environment value (stripped); a nonempty value is unconditionally
    prefixed with the fixed web context to form the fully-qualified token,
    and installed as the youtube po_token extractor argument; an empty
    value installs no entry.  The user agent comes from YTDLP_UA when that
    variable is set, else the fixed default, stripped either way. -/
def buildYdlOpts (poTokenEnv : String) (uaEnv : Option String)
    (cookiefile : Option String) : YdlOpts :=
  let poTokenRaw := pyStrip poTokenEnv
  let poTokenFull := if poTokenRaw != "" then "web+" ++ poTokenRaw else ""
  { fmt := "best[height<=720][filesize<50M]/best[filesize<50M]/best"
    outtmpl := "downloaded_video.%(ext)s"
    mergeOutputFormat := "mp4"
    maxFilesize := sizeCeiling
    userAgent := pyStrip (uaEnv.getD DEFAULT_UA)
    playerClient := ["web", "default"]
    poToken := if poTokenFull != "" then some poTokenFull else none
    cookiefile := cookiefile }

/- ===================== the download engine (download_video, lines 186-317) ===================== -/

/-- The exception kinds distinguished by the except chain at main.py
    lines 288-317, each carrying the str(e) text where the handler uses
    it: yt_dlp.utils.MaxDownloadsReached, yt_dlp.utils.UnsupportedError,
    yt_dlp.utils.ExtractorError, and plain Exception. -/
inductive PyExc where
  | maxDownloads : PyExc
  | unsupported (msg : String) : PyExc
  | extractor (msg : String) : PyExc
  | generic (msg : String) : PyExc
deriving DecidableEq

/-- The str(e) text of an exception; MaxDownloadsReached is matched by
    type and its text is never inspected. -/
def excRaw : PyExc → String
  | PyExc.maxDownloads => ""
  | PyExc.unsupported m => m
  | PyExc.extractor m => m
  | PyExc.generic m => m

/-- Marker phrase at main.py line 299 with the typographic apostrophe. -/
def botMarkerCurly : String :=
  "Sign in to confirm you" ++ String.singleton rightQuoteChar ++ "re not a bot"

/-- Marker phrase at main.py line 299 with the ascii apostrophe. -/
def botMarkerStraight : String :=
  "Sign in to confirm you" ++ String.singleton apostChar ++ "re not a bot"

/-- Hint text at main.py line 300. -/
def poTokenHint : String :=
  "Проверь cookies.txt (Netscape) и poToken (PO_TOKEN_WEB). Обнови их из того же браузера/профиля."

/-- Message of the exception raised at main.py line 251 when the probed
    size exceeds the ceiling (no trailing period in the source). -/
def sizeExceptionMsg : String := "Видео превышает максимальный размер (50 МБ)"

/-- main.py lines 288-317: the except chain converting a raised exception
    to the user-facing error string, by exception type and then by
    substring inspection of str(e). -/
def classifyError : PyExc → String
  | PyExc.maxDownloads => "Видео превышает максимальный размер (50 МБ)."
  | PyExc.unsupported _ => "Неподдерживаемая платформа или формат видео."
  | PyExc.extractor msg =>
      if strContains msg botMarkerCurly || strContains msg botMarkerStraight then
        "Требуется вход (anti-bot). " ++ poTokenHint
      else if strContains msg "Requested format is not available" then
        "Запрашиваемый формат недоступен. Попробуй другое видео."
      else if strContains msg "The provided YouTube account cookies are no longer valid" then
        "Куки протухли. Экспортируй свежие cookies и замени файл."
      else
        "Ошибка извлечения видео: " ++ msg
  | PyExc.generic msg =>
      if strContains msg "Video unavailable" then
        "Видео недоступно или удалено."
      else if strContains msg "Private video" then
        "Видео является приватным."
      else if strContains (pyLower msg) "age" then
        "Видео имеет возрастные ограничения."
      else
        "Ошибка скачивания: " ++ msg

/-- Metadata returned by the probing extract_info call (download=False):
    the optional filesize and filesize_approx fields and the title. -/
structure ProbeInfo where
  filesize : Option Nat
  filesizeApprox : Option Nat
  title : Option String
deriving DecidableEq

/-- Python `a or b` on optional integers: None and 0 are falsy. -/
def pyOrSize (a b : Option Nat) : Option Nat :=
  match a with
  | some n => if n = 0 then b else some n
  | none => b

/-- main.py lines 249-250: the probed size trips the guard when the
    combined size field is truthy and exceeds the ceiling. -/
def sizeTrips (info : ProbeInfo) : Bool :=
  match pyOrSize info.filesize info.filesizeApprox with
  | some n => decide (n > sizeCeiling)
  | none => false

/-- Result of the downloading extract_info call (download=True): the name
    computed by prepare_filename and the title field of the info dict. -/
structure TransferResult where
  preparedName : String
  title : Option String
deriving DecidableEq

/-- Outcome of the probing extract_info call.  A raised exception is
    logged and re-raised (main.py lines 244-246), so it propagates to the
    outer except chain unchanged. -/
inductive ProbeOutcome where
  | raises (e : PyExc) : ProbeOutcome
  | ok (info : ProbeInfo) : ProbeOutcome
deriving DecidableEq

/-- Outcome of the downloading extract_info call. -/
inductive TransferOutcome where
  | raises (e : PyExc) : TransferOutcome
  | ok (r : TransferResult) : TransferOutcome
deriving DecidableEq

/-- The behavior of the extraction backend for one invocation of
    download_video on a fixed url and option set. -/
structure Backend where
  probe : ProbeOutcome
  transfer : TransferOutcome
deriving DecidableEq

/-- Local filesystem state seen by the post-transfer reconciliation code:
    which paths exist, and whether the os.rename call would succeed. -/
structure DlFS where
  fileExists : String → Bool
  renameOk : Bool

/-- main.py lines 258-264: if the prepared name is absent, probe the fixed
    alternate extensions and take the first that exists. -/
def findActualFile (fe : String → Bool) (filename : String) : String :=
  if fe filename then filename
  else
    let base := (splitExtStr filename).1
    match [".mp4", ".webm", ".mkv", ".avi"].find? (fun ext => fe (base ++ ext)) with
    | some ext => base ++ ext
    | none => filename

/-- main.py lines 267-278: rename the artifact to .mp4 when possible; on
    rename failure keep the original name; if the original is absent but
    the .mp4 name exists, use the .mp4 name. -/
def toMp4 (fe : String → Bool) (renameOk : Bool) (filename : String) : String :=
  if strEndsWith filename ".mp4" then filename
  else
    let base := (splitExtStr filename).1
    let newName := base ++ ".mp4"
    if fe filename then
      if renameOk then newName else filename
    else if fe newName then newName
    else filename

/-- main.py lines 236-283, the sync_download closure: probe metadata,
    raise the size exception when the probed size trips the guard (before
    any transfer), otherwise transfer and reconcile the filename; any
    raised exception is the Except.error value. -/
def sync_download (b : Backend) (fs : DlFS) : Except PyExc (String × String) :=
  match b.probe with
  | ProbeOutcome.raises e => Except.error e
  | ProbeOutcome.ok info =>
      if sizeTrips info then Except.error (PyExc.generic sizeExceptionMsg)
      else
        match b.transfer with
        | TransferOutcome.raises e => Except.error e
        | TransferOutcome.ok r =>
            let f1 := findActualFile fs.fileExists r.preparedName
            let f2 := toMp4 fs.fileExists fs.renameOk f1
            Except.ok (f2, r.title.getD "video")

/-- main.py lines 186-317, download_video: returns the pair
    (optional (filename, title), optional error text); a successful run of
    sync_download fills the first slot, a raised exception is classified
    by the except chain into the second slot.  The url determines the
    backend behavior at runtime; here the behavior is the oracle b. -/
def download_video (url : String) (b : Backend) (fs : DlFS) :
    Option (String × String) × Option String :=
  match sync_download b fs with
  | Except.ok r => (some r, none)
  | Except.error e => (none, some (classifyError e))

/- ===================== the spec-side error taxonomy (refinement target) ===================== -/

/-- The closed error taxonomy of spec section 4.2.  This definition follows
    the wording of the spec, not the source; it is the refinement target
    the source classifier is compared against. -/
inductive SpecClassification where
  | SizeExceeded : SpecClassification
  | UnsupportedContent : SpecClassification
  | AuthRequired : SpecClassification
  | FormatUnavailable : SpecClassification
  | CredentialsExpired : SpecClassification
  | ExtractionFailed : SpecClassification
  | ContentUnavailable : SpecClassification
  | ContentPrivate : SpecClassification
  | AgeRestricted : SpecClassification
  | DownloadFailed : SpecClassification
deriving DecidableEq

/-- Spec-side classification of a raised exception, following the claim:
    the max-downloads guard is SizeExceeded; an unrecognized url or format
    is UnsupportedContent; an extractor-level failure is classified by the
    bot-check, format-unavailable and stale-cookies markers in that order,
    else ExtractionFailed; a generic failure is classified by the
    unavailable, private and age markers in that order, else
    DownloadFailed. -/
def specClassify : PyExc → SpecClassification
  | PyExc.maxDownloads => SpecClassification.SizeExceeded
  | PyExc.unsupported _ => SpecClassification.UnsupportedContent
  | PyExc.extractor msg =>
      if strContains msg botMarkerCurly || strContains msg botMarkerStraight then
        SpecClassification.AuthRequired
      else if strContains msg "Requested format is not available" then
        SpecClassification.FormatUnavailable
      else if strContains msg "The provided YouTube account cookies are no longer valid" then
        SpecClassification.CredentialsExpired
      else
        SpecClassification.ExtractionFailed
  | PyExc.generic msg =>
      if strContains msg "Video unavailable" then
        SpecClassification.ContentUnavailable
      else if strContains msg "Private video" then
        SpecClassification.ContentPrivate
      else if strContains (pyLower msg) "age" then
        SpecClassification.AgeRestricted
      else
        SpecClassification.DownloadFailed

/-- The user-facing rendering the source assigns to each taxonomy member;
    the raw str(e) text is included for the two unclassified members. -/
def specMessage : SpecClassification → String → String
  | SpecClassification.SizeExceeded, _ => "Видео превышает максимальный размер (50 МБ)."
  | SpecClassification.UnsupportedContent, _ => "Неподдерживаемая платформа или формат видео."
  | SpecClassification.AuthRequired, _ => "Требуется вход (anti-bot). " ++ poTokenHint
  | SpecClassification.FormatUnavailable, _ => "Запрашиваемый формат недоступен. Попробуй другое видео."
  | SpecClassification.CredentialsExpired, _ => "Куки протухли. Экспортируй свежие cookies и замени файл."
  | SpecClassification.ExtractionFailed, raw => "Ошибка извлечения видео: " ++ raw
  | SpecClassification.ContentUnavailable, _ => "Видео недоступно или удалено."
  | SpecClassification.ContentPrivate, _ => "Видео является приватным."
  | SpecClassification.AgeRestricted, _ => "Видео имеет возрастные ограничения."
  | SpecClassification.DownloadFailed, raw => "Ошибка скачивания: " ++ raw

/- ===================== the chat handler result branch (handle_message, lines 399-456) ===================== -/

/-- main.py detect_platform, lines 157-168. -/
def detect_platform (url : String) : String :=
  if strContains url "youtube.com" || strContains url "youtu.be" then "YouTube"
  else if strContains url "tiktok.com" then "TikTok"
  else if strContains url "instagram.com" then "Instagram"
  else if strContains url "twitter.com" || strContains url "x.com" then "Twitter/X"
  else if strContains url "facebook.com" then "Facebook"
  else "Другое"

/-- Local files visible to handle_message: path to size, none = absent. -/
def FileMap : Type := String → Option Nat

/-- The effect of os.remove on the file map. -/
def removeFile (fs : FileMap) (f : String) : FileMap :=
  fun g => if g = f then none else fs g

/-- User-visible and local effects emitted by the result branch of
    handle_message, in program order. -/
inductive TgEvent where
  | edited (text : String) : TgEvent
  | sentVideo (caption : String) : TgEvent
  | removedFile (name : String) : TgEvent
  | deletedProcessing : TgEvent
  | statsUpdated (platform : String) (size : Nat) : TgEvent
deriving DecidableEq

/-- Per-call-site outcome oracle for the Telegram API calls inside the
    result branch: none means the awaited call succeeds, some e means it
    raises an exception whose str is e. -/
structure TgOracle where
  editNotFound : Option String
  editOversize : Option String
  editSending : Option String
  sendVideo : Option String
  editExceptFail : Option String
  deleteProcessing : Option String

/-- Message at main.py line 405. -/
def notFoundMsgTg : String := "❌ Ошибка: скачанный файл не найден. Попробуй другую ссылку."

/-- Message at main.py line 413. -/
def oversizeMsgTg : String := "❌ Видео слишком большое для Telegram (макс. 50 МБ). Попробуй другое видео."

/-- Message at main.py line 419. -/
def sendingMsgTg : String := "📤 Отправляю видео..."

/-- Message at main.py line 442, parameterized by str(e). -/
def sendFailMsg (e : String) : String :=
  "❌ Не удалось отправить видео: " ++ e ++ ". Попробуй другую ссылку."

/-- main.py lines 440-447, the except handler of the result branch: edit
    the status message to a failure note (if that edit itself raises, the
    exception propagates and nothing further runs), then remove the file
    if it still exists, swallowing removal errors. -/
def exceptHandler (fs : FileMap) (filename : String) (e : String) (o : TgOracle)
    (evs : List TgEvent) : FileMap × List TgEvent :=
  match o.editExceptFail with
  | some _ => (fs, evs)
  | none =>
      let evs := evs ++ [TgEvent.edited (sendFailMsg e)]
      match fs filename with
      | some _ => (removeFile fs filename, evs ++ [TgEvent.removedFile filename])
      | none => (fs, evs)

/-- main.py lines 400-447: the branch of handle_message that runs when
    download_video returned a media result.  Checks existence, re-checks
    the final size against the ceiling (reporting and deleting on
    oversize), otherwise sends the video, updates the ledger, removes the
    file and deletes the status message; any raised Telegram exception
    transfers control to the except handler. -/
def handleDownloadResult (url filename title : String) (fs : FileMap) (o : TgOracle) :
    FileMap × List TgEvent :=
  match fs filename with
  | none =>
      match o.editNotFound with
      | none => (fs, [TgEvent.edited notFoundMsgTg])
      | some e => exceptHandler fs filename e o []
  | some sz =>
      if sz > sizeCeiling then
        match o.editOversize with
        | none => (removeFile fs filename, [TgEvent.edited oversizeMsgTg, TgEvent.removedFile filename])
        | some e => exceptHandler fs filename e o []
      else
        match o.editSending with
        | some e => exceptHandler fs filename e o []
        | none =>
            let evs := [TgEvent.edited sendingMsgTg]
            match o.sendVideo with
            | some e => exceptHandler fs filename e o evs
            | none =>
                let evs := evs ++ [TgEvent.sentVideo ("✅ Скачано: " ++ title)]
                let evs := evs ++ [TgEvent.statsUpdated (detect_platform url) sz]
                let fs2 := removeFile fs filename
                let evs := evs ++ [TgEvent.removedFile filename]
                match o.deleteProcessing with
                | some e => exceptHandler fs2 filename e o evs
                | none => (fs2, evs ++ [TgEvent.deletedProcessing])

/- ===================== the usage ledger (lines 112-154) ===================== -/

/-- One user record of user_stats.json, main.py lines 134-141.  The
    platform histogram is the total function sending absent keys to 0,
    matching the dict get with default 0. -/
structure UsageRecord where
  downloads_count : Nat
  total_size : Nat
  platforms : String → Nat
  first_use : String
  last_activity : String

/-- The whole persisted document: user id string to record. -/
def StatsDoc : Type := String → Option UsageRecord

/-- State of the persisted statistics file as seen by one load: readable
    with the given document, missing, or unreadable/unparsable. -/
inductive LoadSrc where
  | ok (d : StatsDoc) : LoadSrc
  | missing : LoadSrc
  | unreadable : LoadSrc

/-- main.py load_user_stats, lines 112-119: a missing file or any read or
    parse error yields the empty mapping. -/
def load_user_stats : LoadSrc → StatsDoc
  | LoadSrc.ok d => d
  | LoadSrc.missing => fun _ => none
  | LoadSrc.unreadable => fun _ => none

/-- The record created for a previously-unseen user, main.py lines
    135-141: zero counts, empty histogram, first_use and last_activity
    set to now. -/
def freshUserRecord (now : String) : UsageRecord :=
  { downloads_count := 0
    total_size := 0
    platforms := fun _ => 0
    first_use := now
    last_activity := now }

/-- main.py update_user_stats, lines 130-149: load the whole document,
    create the user record if absent, increment the download count, add
    the file size, refresh last_activity, bump the platform histogram
    entry, and persist the whole document (the returned value is the
    document passed to save_user_stats).  The Python int user id is
    already converted to its string key here; the now parameter stands
    for datetime.now().isoformat(). -/
def update_user_stats (src : LoadSrc) (user_id platform : String)
    (file_size : Nat) (now : String) : StatsDoc :=
  let stats := load_user_stats src
  let base :=
    match stats user_id with
    | some r => r
    | none => freshUserRecord now
  let updated : UsageRecord :=
    { downloads_count := base.downloads_count + 1
      total_size := base.total_size + file_size
      platforms := fun p => if p = platform then base.platforms platform + 1 else base.platforms p
      first_use := base.first_use
      last_activity := now }
  fun u => if u = user_id then some updated else stats u

/-- main.py get_user_stats, lines 152-154. -/
def get_user_stats (src : LoadSrc) (user_id : String) : Option UsageRecord :=
  load_user_stats src user_id

/- ===================== concrete instances used by counterexamples and witnesses ===================== -/

/-- Probe metadata reporting a size one byte over the ceiling. -/
def overProbeInfo : ProbeInfo :=
  { filesize := some (50 * 1024 * 1024 + 1), filesizeApprox := none, title := some "t" }

/-- Backend whose probe reports the oversize metadata and whose transfer,
    were it invoked, would succeed. -/
def overBackend : Backend :=
  { probe := ProbeOutcome.ok overProbeInfo
    transfer := TransferOutcome.ok { preparedName := "downloaded_video.mp4", title := some "t" } }

/-- Empty local filesystem for the engine. -/
def fsNone : DlFS := { fileExists := fun _ => false, renameOk := false }

/-- Cookie probe for the C6 counterexample: the first fallback candidate
    is a file whose raw first line carries the marker only after leading
    whitespace, so the exact leading comment bytes are absent. -/
def c6probe : String → CookieProbe :=
  fun p =>
    if p = "/etc/secrets/cookies.txt" then
      CookieProbe.firstLine "   # Netscape HTTP Cookie File"
    else CookieProbe.notFile

/-- A one-user statistics document used by witnesses. -/
def rTest : UsageRecord :=
  { downloads_count := 2
    total_size := 10
    platforms := fun p => if p = "YouTube" then 2 else 0
    first_use := "t0"
    last_activity := "t1" }

/-- Document holding rTest under user key 1. -/
def dTest : StatsDoc := fun u => if u = "1" then some rTest else none

/-- The empty statistics document. -/
def dEmpty : StatsDoc := fun _ => none

/-- Concrete file map for the C4 witness: one downloaded file of 60 MiB. -/
def wFileMap : FileMap :=
  fun f => if f = "downloaded_video.mp4" then some (60 * 1024 * 1024) else none

/-- Telegram oracle where every call succeeds. -/
def tgAllOk : TgOracle :=
  { editNotFound := none, editOversize := none, editSending := none
    sendVideo := none, editExceptFail := none, deleteProcessing := none }

/- ===================== theorems ===================== -/

/-- Helper: the cookie scanning loop returns exactly the first candidate
    accepted by the validation predicate. -/
theorem findCookieLoop_eq_find (probe : String → CookieProbe) :
    ∀ l : List String, findCookieLoop probe l = l.find? (cookieAccepts probe) := by
  intro l
  induction l with
  | nil => rfl
  | cons p rest ih =>
      by_cases hp : (p != "") = true
      · cases hpr : probe p with
        | notFile => simp [findCookieLoop, List.find?, cookieAccepts, hp, hpr, ih]
        | readError => simp [findCookieLoop, List.find?, cookieAccepts, hp, hpr, ih]
        | firstLine raw =>
            by_cases hok : cookieFirstLineOk raw = true
            · simp [findCookieLoop, List.find?, cookieAccepts, hp, hpr, hok]
            · simp [findCookieLoop, List.find?, cookieAccepts, hp, hpr, hok, ih]
      · simp [findCookieLoop, List.find?, cookieAccepts, hp, ih]

/-- C1: for every url, backend behavior and filesystem state, one
    invocation of download_video populates exactly one output slot:
    either a media result with no error text, or an error text with no
    media result. -/
theorem claim_C1_exactly_one_slot (url : String) (b : Backend) (fs : DlFS) :
    ((download_video url b fs).1.isSome = true ∧ (download_video url b fs).2 = none) ∨
    ((download_video url b fs).1 = none ∧ (download_video url b fs).2.isSome = true) := by
  cases h : sync_download b fs with
  | ok r => left; simp [download_video, h]
  | error e => right; simp [download_video, h]

/-- C2: the except chain of download_video classifies every raised
    exception into the closed spec taxonomy by exception type and then by
    substring inspection of the raw text, and renders each class to its
    fixed user message (including the raw message for the two unclassified
    classes): the source classifier factors exactly through the spec-side
    classification, both as a standalone mapping and end to end through
    download_video for every exception raised by the extraction backend. -/
theorem claim_C2_error_taxonomy :
    (∀ e, classifyError e = specMessage (specClassify e) (excRaw e)) ∧
    (∀ url e tr fs,
      download_video url { probe := ProbeOutcome.raises e, transfer := tr } fs =
        (none, some (specMessage (specClassify e) (excRaw e)))) := by
  have h : ∀ e, classifyError e = specMessage (specClassify e) (excRaw e) := by
    intro e
    cases e with
    | maxDownloads => rfl
    | unsupported m => rfl
    | extractor m =>
        by_cases h1 : (strContains m botMarkerCurly || strContains m botMarkerStraight) = true
        · simp [classifyError, specClassify, excRaw, specMessage, h1]
        · by_cases h2 : strContains m "Requested format is not available" = true
          · simp [classifyError, specClassify, excRaw, specMessage, h1, h2]
          · by_cases h3 : strContains m "The provided YouTube account cookies are no longer valid" = true
            · simp [classifyError, specClassify, excRaw, specMessage, h1, h2, h3]
            · simp [classifyError, specClassify, excRaw, specMessage, h1, h2, h3]
    | generic m =>
        by_cases h1 : strContains m "Video unavailable" = true
        · simp [classifyError, specClassify, excRaw, specMessage, h1]
        · by_cases h2 : strContains m "Private video" = true
          · simp [classifyError, specClassify, excRaw, specMessage, h1, h2]
          · by_cases h3 : strContains (pyLower m) "age" = true
            · simp [classifyError, specClassify, excRaw, specMessage, h1, h2, h3]
            · simp [classifyError, specClassify, excRaw, specMessage, h1, h2, h3]
  refine ⟨h, fun url e tr fs => ?_⟩
  simp [download_video, sync_download, h e]

/-- C3 counterexample: on a backend whose probe reports a size one byte
    over the ceiling, download_video returns the generic download-failure
    rendering wrapping the size text, which the spec taxonomy classifies
    as DownloadFailed, not as the SizeExceeded classification (the
    rendering the code uses for the max-downloads guard); so the claim
    that the engine returns the SizeExceeded classification fails here. -/
theorem claim_C3_counterexample :
    download_video "u" overBackend fsNone =
      (none, some ("Ошибка скачивания: " ++ sizeExceptionMsg)) ∧
    specClassify (PyExc.generic sizeExceptionMsg) = SpecClassification.DownloadFailed ∧
    ("Ошибка скачивания: " ++ sizeExceptionMsg) ≠
      specMessage SpecClassification.SizeExceeded sizeExceptionMsg := by
  refine ⟨by decide, by decide, by decide⟩

/-- C3 amended: for every url whose metadata probe reports a size
    exceeding the ceiling, download_video returns no media and the
    generic download-failure message wrapping the size-exceeded text, and
    never invokes the transfer step: the result is independent of the
    transfer outcome and of the filesystem state. -/
theorem claim_C3_amended (url : String) (info : ProbeInfo) (tr tr' : TransferOutcome)
    (fs fs' : DlFS) (h : sizeTrips info = true) :
    download_video url { probe := ProbeOutcome.ok info, transfer := tr } fs =
      (none, some ("Ошибка скачивания: " ++ sizeExceptionMsg)) ∧
    download_video url { probe := ProbeOutcome.ok info, transfer := tr } fs =
      download_video url { probe := ProbeOutcome.ok info, transfer := tr' } fs' := by
  have hcl : classifyError (PyExc.generic sizeExceptionMsg) =
      "Ошибка скачивания: " ++ sizeExceptionMsg := by rfl
  constructor
  · simp [download_video, sync_download, h, hcl]
  · simp [download_video, sync_download, h]

/-- C3 witness: the amended theorem applied to the concrete oversize
    probe metadata. -/
theorem claim_C3_witness :
    download_video "u"
      (Backend.mk (ProbeOutcome.ok overProbeInfo)
        (TransferOutcome.raises (PyExc.generic "boom"))) fsNone =
      (none, some ("Ошибка скачивания: " ++ sizeExceptionMsg)) :=
  (claim_C3_amended "u" overProbeInfo (TransferOutcome.raises (PyExc.generic "boom"))
    (TransferOutcome.ok { preparedName := "x", title := none }) fsNone fsNone (by decide)).1

/-- C4: whenever the result branch of handle_message sees a downloaded
    file whose final size exceeds the ceiling, then if the oversize report
    is delivered the branch emits exactly the report followed by the file
    removal and returns with the file deleted; and in every run, the file
    never survives a delivered oversize report. -/
theorem claim_C4_oversize_delete (url filename title : String) (fs : FileMap)
    (o : TgOracle) (sz : Nat) (hf : fs filename = some sz) (hsz : sz > sizeCeiling) :
    (o.editOversize = none →
      handleDownloadResult url filename title fs o =
        (removeFile fs filename,
          [TgEvent.edited oversizeMsgTg, TgEvent.removedFile filename]) ∧
      (handleDownloadResult url filename title fs o).1 filename = none) ∧
    (TgEvent.edited oversizeMsgTg ∈ (handleDownloadResult url filename title fs o).2 →
      (handleDownloadResult url filename title fs o).1 filename = none) := by
  have hif : (sz > sizeCeiling) = True := by simp [hsz]
  constructor
  · intro ho
    have heq : handleDownloadResult url filename title fs o =
        (removeFile fs filename,
          [TgEvent.edited oversizeMsgTg, TgEvent.removedFile filename]) := by
      simp [handleDownloadResult, hf, hif, ho]
    exact ⟨heq, by rw [heq]; simp [removeFile]⟩
  · intro hmem
    cases ho : o.editOversize with
    | none =>
        have heq : handleDownloadResult url filename title fs o =
            (removeFile fs filename,
              [TgEvent.edited oversizeMsgTg, TgEvent.removedFile filename]) := by
          simp [handleDownloadResult, hf, hif, ho]
        rw [heq]; simp [removeFile]
    | some e =>
        have heq : handleDownloadResult url filename title fs o =
            exceptHandler fs filename e o [] := by
          simp [handleDownloadResult, hf, hif, ho]
        cases hx : o.editExceptFail with
        | some e2 =>
            rw [heq] at hmem
            simp [exceptHandler, hx] at hmem
        | none =>
            rw [heq]
            simp [exceptHandler, hx, hf, removeFile]

/-- C4 witness: the theorem applied to a 60 MiB downloaded file with all
    Telegram calls succeeding. -/
theorem claim_C4_witness :
    handleDownloadResult "u" "downloaded_video.mp4" "t" wFileMap tgAllOk =
      (removeFile wFileMap "downloaded_video.mp4",
        [TgEvent.edited oversizeMsgTg, TgEvent.removedFile "downloaded_video.mp4"]) :=
  ((claim_C4_oversize_delete "u" "downloaded_video.mp4" "t" wFileMap tgAllOk
      (60 * 1024 * 1024) (by decide) (by decide)).1 rfl).1

/-- C5: cookie discovery scans the explicitly configured path (stripped,
    when nonempty) followed by the fixed ordered fallback list, and
    returns exactly the first candidate accepted by the validation
    predicate, which requires the candidate to be a readable file whose
    stripped first line starts with one of the two recognized header
    strings; candidates that are not files, fail the header check, or
    raise on read are skipped, and when no candidate validates the result
    is none rather than a failure. -/
theorem claim_C5_cookie_discovery (probe : String → CookieProbe) (envRaw : String) :
    find_cookiefile probe envRaw = (cookieCandidates envRaw).find? (cookieAccepts probe) ∧
    cookieCandidates envRaw =
      (if pyStrip envRaw != "" then [pyStrip envRaw] else []) ++ DEFAULT_COOKIES_CANDIDATES ∧
    (find_cookiefile probe envRaw = none ↔
      ∀ p ∈ cookieCandidates envRaw, cookieAccepts probe p = false) := by
  refine ⟨findCookieLoop_eq_find probe _, rfl, ?_⟩
  rw [find_cookiefile, findCookieLoop_eq_find probe, List.find?_eq_none]
  simp

/-- C5 witness: the characterization applied to a filesystem where no
    candidate is a file resolves to no cookies rather than a failure. -/
theorem claim_C5_witness :
    find_cookiefile (fun _ => CookieProbe.notFile) "" = none :=
  (claim_C5_cookie_discovery (fun _ => CookieProbe.notFile) "").2.2.mpr (by decide)

/-- C6 counterexample: the first fallback candidate is accepted although
    its raw first line carries the marker only after leading whitespace,
    so the exact leading comment bytes are absent; the resolver
    nevertheless returns that original path itself as its entire result -
    no scratch copy with the header prepended is produced, refuting the
    claim at this concrete input. -/
theorem claim_C6_counterexample :
    find_cookiefile c6probe "" = some "/etc/secrets/cookies.txt" ∧
    c6probe "/etc/secrets/cookies.txt" =
      CookieProbe.firstLine "   # Netscape HTTP Cookie File" ∧
    strStartsWith "   # Netscape HTTP Cookie File" "# Netscape HTTP Cookie File" = false ∧
    strStartsWith "   # Netscape HTTP Cookie File" "# HTTP Cookie File" = false := by
  refine ⟨by decide, rfl, by decide, by decide⟩

/-- C6 amended: the resolver never produces a scratch copy; every
    accepted result is one of the candidate paths returned verbatim, with
    its (possibly header-byte-deficient) first line as probed. -/
theorem claim_C6_amended (probe : String → CookieProbe) (envRaw p : String)
    (h : find_cookiefile probe envRaw = some p) :
    p ∈ cookieCandidates envRaw ∧
    ∃ raw, probe p = CookieProbe.firstLine raw ∧ cookieFirstLineOk raw = true := by
  have hf : (cookieCandidates envRaw).find? (cookieAccepts probe) = some p := by
    rw [← findCookieLoop_eq_find]; exact h
  have hmem := List.mem_of_find?_eq_some hf
  have hacc := List.find?_some hf
  refine ⟨hmem, ?_⟩
  rw [cookieAccepts, Bool.and_eq_true] at hacc
  obtain ⟨-, hb⟩ := hacc
  cases hpr : probe p with
  | notFile => rw [hpr] at hb; exact absurd hb (by simp)
  | readError => rw [hpr] at hb; exact absurd hb (by simp)
  | firstLine raw => rw [hpr] at hb; exact ⟨raw, rfl, hb⟩

/-- C6 witness: the amended theorem applied to the counterexample
    filesystem. -/
theorem claim_C6_witness :
    "/etc/secrets/cookies.txt" ∈ cookieCandidates "" ∧
    ∃ raw, c6probe "/etc/secrets/cookies.txt" = CookieProbe.firstLine raw ∧
      cookieFirstLineOk raw = true :=
  claim_C6_amended c6probe "" "/etc/secrets/cookies.txt" (by decide)

/-- C7 counterexample: the supplied token string webT1 contains no plus
    separator, yet it is not rejected: the assembled options carry the
    authorization entry web+webT1, refuting the claim that such a string
    is ignored and the strategy carries no authorization entry. -/
theorem claim_C7_counterexample :
    strContains "webT1" "+" = false ∧
    (buildYdlOpts "webT1" none none).poToken = some "web+webT1" ∧
    (buildYdlOpts "webT1" none none).poToken ≠ none := by
  refine ⟨by decide, by decide, by decide⟩

/-- C7 amended: a raw token with the fixed web context yields the
    fully-qualified web+token shape, and every nonempty stripped value is
    installed this way unconditionally - no separator validation exists;
    only an empty value yields no authorization entry. -/
theorem claim_C7_amended (raw : String) (ua : Option String) (cf : Option String) :
    (pyStrip raw = "" → (buildYdlOpts raw ua cf).poToken = none) ∧
    (pyStrip raw ≠ "" → (buildYdlOpts raw ua cf).poToken = some ("web+" ++ pyStrip raw)) := by
  constructor
  · intro h; simp [buildYdlOpts, h]
  · intro h
    have hne : (pyStrip raw != "") = true := bne_iff_ne.mpr h
    have hfull : ("web+" ++ pyStrip raw) ≠ "" := by
      intro hE
      have hlen := congrArg String.length hE
      rw [String.length_append] at hlen
      have h4 : ("web+" : String).length = 4 := rfl
      have h0 : ("" : String).length = 0 := rfl
      rw [h4, h0] at hlen
      omega
    have hfne : (("web+" ++ pyStrip raw) != "") = true := bne_iff_ne.mpr hfull
    simp [buildYdlOpts, hne, hfne]

/-- C7 witness: the amended theorem applied to the raw token T1 yields
    the fully-qualified entry web+T1, matching the example in the claim. -/
theorem claim_C7_witness :
    (buildYdlOpts "T1" none none).poToken = some "web+T1" := by
  rw [(claim_C7_amended "T1" none none).2 (by decide)]
  decide

/-- C8: recording a download for a user with no existing record and then
    querying that user returns a record with download count one, total
    size equal to the recorded bytes, a histogram that is one at the
    recorded platform tag and zero everywhere else, and first_use set to
    the creation time. -/
theorem claim_C8_round_trip (d : StatsDoc) (uid tag : String) (bytes : Nat) (now : String)
    (h : d uid = none) :
    ∃ r, get_user_stats (LoadSrc.ok (update_user_stats (LoadSrc.ok d) uid tag bytes now)) uid
        = some r ∧
      r.downloads_count = 1 ∧ r.total_size = bytes ∧ r.platforms tag = 1 ∧
      (∀ q, q ≠ tag → r.platforms q = 0) ∧ r.first_use = now := by
  have hupd : update_user_stats (LoadSrc.ok d) uid tag bytes now uid =
      some { downloads_count := 1, total_size := bytes,
             platforms := fun p => if p = tag then 1 else 0,
             first_use := now, last_activity := now } := by
    simp [update_user_stats, load_user_stats, freshUserRecord, h]
  exact ⟨_, hupd, rfl, rfl, by simp, fun q hq => by simp [hq], rfl⟩

/-- C8 witness: the theorem applied to the empty document. -/
theorem claim_C8_witness :
    ∃ r, get_user_stats
        (LoadSrc.ok (update_user_stats (LoadSrc.ok dEmpty) "7" "TikTok" 123 "t0")) "7"
        = some r ∧
      r.downloads_count = 1 ∧ r.total_size = 123 ∧ r.platforms "TikTok" = 1 ∧
      r.platforms "YouTube" = 0 ∧ r.first_use = "t0" := by
  obtain ⟨r, hr, h1, h2, h3, h4, h5⟩ := claim_C8_round_trip dEmpty "7" "TikTok" 123 "t0" rfl
  exact ⟨r, hr, h1, h2, h3, h4 "YouTube" (by decide), h5⟩

/-- C9: one record call leaves every other user entry of the document
    unchanged, and for a user that already has a record it produces
    exactly the record with the download count incremented, the bytes
    added, the last activity refreshed, the histogram bumped only at the
    recorded platform tag, and first_use unchanged. -/
theorem claim_C9_frame (d : StatsDoc) (uid tag : String) (bytes : Nat) (now : String) :
    (∀ v, v ≠ uid → update_user_stats (LoadSrc.ok d) uid tag bytes now v = d v) ∧
    (∀ r, d uid = some r →
      update_user_stats (LoadSrc.ok d) uid tag bytes now uid =
        some { downloads_count := r.downloads_count + 1
               total_size := r.total_size + bytes
               platforms := fun p => if p = tag then r.platforms tag + 1 else r.platforms p
               first_use := r.first_use
               last_activity := now }) := by
  constructor
  · intro v hv; simp [update_user_stats, load_user_stats, hv]
  · intro r hr; simp [update_user_stats, load_user_stats, hr]

/-- C9 witness: the theorem applied to a one-user document: the entry of
    user 2 is untouched and the entry of user 1 is updated in place with
    first_use preserved. -/
theorem claim_C9_witness :
    update_user_stats (LoadSrc.ok dTest) "1" "YouTube" 5 "t2" "2" = dTest "2" ∧
    update_user_stats (LoadSrc.ok dTest) "1" "YouTube" 5 "t2" "1" =
      some { downloads_count := rTest.downloads_count + 1
             total_size := rTest.total_size + 5
             platforms := fun p => if p = "YouTube" then rTest.platforms "YouTube" + 1
                                   else rTest.platforms p
             first_use := rTest.first_use
             last_activity := "t2" } :=
  ⟨(claim_C9_frame dTest "1" "YouTube" 5 "t2").1 "2" (by decide),
   (claim_C9_frame dTest "1" "YouTube" 5 "t2").2 rTest rfl⟩

/-- C10: when the persisted statistics document is missing or unreadable,
    loading yields the empty mapping, every query returns absent, and the
    next record call persists a document built from that empty mapping:
    the new user holds a fresh incremented record and every other user
    entry is gone. -/
theorem claim_C10_reset (src : LoadSrc) (uid tag : String) (bytes : Nat) (now : String)
    (h : src = LoadSrc.missing ∨ src = LoadSrc.unreadable) :
    (∀ u, load_user_stats src u = none) ∧
    (∀ u, get_user_stats src u = none) ∧
    (∀ v, v ≠ uid → update_user_stats src uid tag bytes now v = none) ∧
    (∃ r, update_user_stats src uid tag bytes now uid = some r ∧
      r.downloads_count = 1 ∧ r.total_size = bytes ∧ r.platforms tag = 1 ∧
      (∀ q, q ≠ tag → r.platforms q = 0) ∧ r.first_use = now ∧ r.last_activity = now) := by
  have key : ∀ u, load_user_stats src u = none := by
    rcases h with h | h <;> subst h <;> intro u <;> rfl
  refine ⟨key, fun u => key u, ?_, ?_⟩
  · intro v hv
    simp [update_user_stats, key, hv]
  · have hupd : update_user_stats src uid tag bytes now uid =
        some { downloads_count := 1, total_size := bytes,
               platforms := fun p => if p = tag then 1 else 0,
               first_use := now, last_activity := now } := by
      simp [update_user_stats, key, freshUserRecord]
    exact ⟨_, hupd, rfl, rfl, by simp, fun q hq => by simp [hq], rfl, rfl⟩

/-- C10 witness: the theorem applied to the missing-file state. -/
theorem claim_C10_witness :
    load_user_stats LoadSrc.missing "1" = none ∧
    get_user_stats LoadSrc.missing "1" = none ∧
    update_user_stats LoadSrc.missing "9" "YouTube" 7 "t0" "1" = none ∧
    (∃ r, update_user_stats LoadSrc.missing "9" "YouTube" 7 "t0" "9" = some r ∧
      r.downloads_count = 1 ∧ r.total_size = 7 ∧ r.platforms "YouTube" = 1 ∧
      r.platforms "TikTok" = 0 ∧ r.first_use = "t0" ∧ r.last_activity = "t0") := by
  obtain ⟨k, g, f, r, hr, h1, h2, h3, h4, h5, h6⟩ :=
    claim_C10_reset LoadSrc.missing "9" "YouTube" 7 "t0" (Or.inl rfl)
  exact ⟨k "1", g "1", f "1" (by decide), r, hr, h1, h2, h3, h4 "TikTok" (by decide), h5, h6⟩

end SaveVidBot
